import Mathlib

/-!
Verification of the wordseer_flask structural extractor and pipeline
orchestrator (`src/structureextractor.py`,
`src/app/preprocessor/collectionprocessor.py`).

Modelling conventions, shared by all definitions below:

* Python strings are Lean `String`s; the Python operations used by the
  source (`str.lower`, `str.strip`, `in` substring test, `str.split(" ")`,
  `os.path.splitext`) are embedded as explicit functions over the
  character data so that everything reduces by `rfl`/`decide`.
* Fallible Python code is embedded in `Except PyErr`.  A dictionary
  subscript `d["k"]` on a missing key raises `KeyError` in Python; the
  source wraps several such subscripts in `try/except NameError`, which
  cannot catch `KeyError`, so those `except` branches are dead and the
  lookup is embedded as "value or `KeyError`".
* The XML library is an external collaborator.  XPath evaluation
  (`node.xpath(p)`) is a parameter `xp : Node → String → List Node`, and
  text serialisation (`etree.tostring(node, method="text")`) is a
  parameter `tostr : Node → String`.  A node's own behaviour follows the
  object the docstrings declare (a BeautifulSoup `Tag`): `.children` and
  iteration yield the direct children, `.text` is a string, `.get(a)`
  returns the attribute value or `None`.  A Python *list* of nodes has no
  `.children` attribute in any library, so that access is an
  `AttributeError`.
* JSON-valued optional fields distinguish "key absent" from "key present
  with value `null`" because the source treats them differently (a lookup
  of an absent key raises, an explicit `is not None` test handles `null`).
-/

namespace Wordseer

/-- Python `AttributeError` / `KeyError` / `TypeError` / `ValueError`, plus
the fuel marker used to embed the source's general recursion. -/
inductive PyErr where
  | keyError (key : String)
  | attributeError
  | typeError
  | valueError
  | recursionError
  deriving DecidableEq, Repr

/-- Python `needle in hay` for strings: contiguous substring containment. -/
def pyIn (needle hay : String) : Bool :=
  decide (needle.data <:+: hay.data)

/-- Python `str.lower()` (per-character lowercasing). -/
def pyLower (s : String) : String :=
  ⟨s.data.map Char.toLower⟩

/-- Python `str.strip()`: drop leading and trailing whitespace. -/
def pyStrip (s : String) : String :=
  ⟨((s.data.dropWhile Char.isWhitespace).reverse.dropWhile Char.isWhitespace).reverse⟩

/-- `len(s.strip()) == 0`: the string is empty or all whitespace.  This is
the blank-XPath sentinel test used throughout the extractor. -/
def pyBlank (s : String) : Bool :=
  s.data.all Char.isWhitespace

/-- Python `s.split(" ")` (split on every single space; never empty). -/
def pySplitSpace (s : String) : List String :=
  s.splitOn " "

/-- An XML element as the extractor sees it: tag name, attributes, own
text content, and direct children. -/
inductive Node where
  | mk (tag : String) (attrs : List (String × String)) (text : String)
       (children : List Node)

/-- The element's attribute dictionary lookup, `node.get(a)`:
the attribute's value, or `None` when absent. -/
def Node.get : Node → String → Option String
  | .mk _ attrs _ _, a => (attrs.find? (fun p => p.1 == a)).map (·.2)

/-- `node.text` (a string on the Tag objects the docstrings declare). -/
def Node.text : Node → String
  | .mk _ _ t _ => t

/-- The element's direct children. -/
def Node.children : Node → List Node
  | .mk _ _ _ cs => cs

/-- External XPath evaluation, `node.xpath(pattern)` (lxml collaborator). -/
def XPathFn : Type := Node → String → List Node

/-- External text serialisation, `etree.tostring(node, method="text")`. -/
def ToStrFn : Type := Node → String

/-- The dynamic result of `get_nodes_from_xpath`: the original node object
itself (blank pattern) or the Python list returned by `.xpath`. -/
inductive NodesResult where
  | node (n : Node)
  | list (l : List Node)

/-- `get_nodes_from_xpath` (structureextractor.py lines 263-273): a blank
selector returns the node object itself, otherwise the XPath match list. -/
def get_nodes_from_xpath (xp : XPathFn) (xpath : String) (nodes : Node) :
    NodesResult :=
  if pyBlank xpath then .node nodes else .list (xp nodes xpath)

/-- The `.children` attribute access on the result of
`get_nodes_from_xpath` (line 82).  On a Tag it yields the direct
children; a Python list has no `children` attribute, so that access
raises `AttributeError`. -/
def childrenAttr : NodesResult → Except PyErr (List Node)
  | .node n => .ok n.children
  | .list _ => .error .attributeError

/-- Iterating the result of `get_nodes_from_xpath` with a `for` loop
(line 137).  Iterating an XML element yields its direct children;
iterating a list yields its elements. -/
def iterAttr : NodesResult → List Node
  | .node n => n.children
  | .list l => l

/-- A JSON object field that may be absent, explicitly `null`, or hold a
value.  Subscripting an absent key raises `KeyError`; the source's
surrounding `except NameError` cannot catch it (design note in the repo:
the default-valued branch is dead code). -/
inductive JsonOpt (α : Type) where
  | absent
  | null
  | val (a : α)
  deriving DecidableEq, Repr

/-- `d[key]` guarded by `try ... except NameError`: the `except` branch
never fires, so an absent key propagates `KeyError`; `null` and real
values are returned (as `None` / the value). -/
def JsonOpt.lookup (key : String) : JsonOpt α → Except PyErr (Option α)
  | .absent => .error (.keyError key)
  | .null => .ok none
  | .val a => .ok (some a)

/-- A metadata rule from the structure-grammar JSON:
`{ "xpaths": [...], "attr": ..., "propertyName": ... }`, each field as it
appears in the JSON object. -/
structure MetadataRule where
  xpaths : JsonOpt (List String)
  attr : JsonOpt String
  propertyName : Option String
  deriving DecidableEq, Repr

/-- A `Metadata` record (document.metadata.Metadata). -/
structure Metadata where
  value : String
  property_name : String
  specification : MetadataRule
  deriving DecidableEq, Repr

/-- `get_xpath_attribute` non-blank branch, the `for node in nodes:` loop
(lines 233-238): the attribute value is `None` when the attribute is
absent, and `None.split(" ")` raises `AttributeError`. -/
def gxaLoop (attrName : String) : List Node → List String →
    Except PyErr (List String)
  | [], values => .ok values
  | n :: rest, values =>
    match n.get attrName with
    | none => .error .attributeError
    | some v =>
      -- `if len(vals) > 0` is always true: str.split never returns []
      gxaLoop attrName rest (values ++ pySplitSpace v)

/-- `get_xpath_attribute` (lines 213-239). -/
def get_xpath_attribute (xp : XPathFn) (xpath_pattern attrName : String)
    (node : Node) : Except PyErr (List String) :=
  if pyBlank xpath_pattern then
    match node.get attrName with
    | none => .error .attributeError
    | some v => .ok (pySplitSpace v)
  else
    gxaLoop attrName (xp node xpath_pattern) []

/-- `get_xpath_text` (lines 241-261).  In the non-blank branch the loop
body reads `etree.tostring(nodes, method="text")` where `nodes` is the
whole Python match list (the loop variable `node` is unused), and
`etree.tostring` raises `TypeError` on a list; with no matches the loop
does not run and the empty list is returned. -/
def get_xpath_text (tostr : ToStrFn) (xp : XPathFn) (xpath_pattern : String)
    (node : Node) : Except PyErr (List String) :=
  if pyBlank xpath_pattern then
    .ok [tostr node]
  else
    match xp node xpath_pattern with
    | [] => .ok []
    | _ :: _ => .error .typeError

/-- `get_metadata` inner loop over extracted values (lines 206-210):
each value becomes one `Metadata`; `spec["propertyName"]` is looked up at
each construction and raises `KeyError` when absent. -/
def gmVals (spec : MetadataRule) : List String → List Metadata →
    Except PyErr (List Metadata)
  | [], acc => .ok acc
  | v :: rest, acc => do
    let pn ← match spec.propertyName with
      | some pn => Except.ok pn
      | none => Except.error (.keyError "propertyName")
    gmVals spec rest (acc ++ [⟨v, pn, spec⟩])

/-- `get_metadata` loop over one rule's xpaths (lines 200-210). -/
def gmXpaths (tostr : ToStrFn) (xp : XPathFn) (spec : MetadataRule)
    (attrName : Option String) : List String → Node → List Metadata →
    Except PyErr (List Metadata)
  | [], _, acc => .ok acc
  | xpath :: rest, node, acc => do
    let extracted ← match attrName with
      | some a => get_xpath_attribute xp xpath a node
      | none => get_xpath_text tostr xp xpath node
    let acc1 ← gmVals spec extracted acc
    gmXpaths tostr xp spec attrName rest node acc1

/-- `get_metadata` loop over the metadata rules (lines 187-210).  The
lookups of `spec["xpaths"]` and `spec["attr"]` raise `KeyError` on absent
keys (their `except NameError` guards never fire); an explicit `null`
reaches the `is not None` tests as `None`. -/
def gmSpecs (tostr : ToStrFn) (xp : XPathFn) : List MetadataRule → Node →
    List Metadata → Except PyErr (List Metadata)
  | [], _, acc => .ok acc
  | spec :: rest, node, acc => do
    let xpaths ← spec.xpaths.lookup "xpaths"
    let attrName ← spec.attr.lookup "attr"
    let acc1 ← match xpaths with
      | some xps => gmXpaths tostr xp spec attrName xps node acc
      | none => Except.ok acc    -- `if xpaths is not None` fails for null
    gmSpecs tostr xp rest node acc1

/-- `get_metadata` (lines 166-211).  `metadata_structure` is the value the
caller looked up: `none` embeds Python `None`. -/
def get_metadata (tostr : ToStrFn) (xp : XPathFn)
    (metadata_structure : Option (List MetadataRule)) (node : Node) :
    Except PyErr (List Metadata) :=
  match metadata_structure with
  | none => .ok []    -- `if metadata_structure is not None` guard
  | some specs => gmSpecs tostr xp specs node []

mutual
/-- The `"units"` field of a structure rule: absent, `null`, or a list of
child structure rules (a dedicated list type so that the rule tree is a
plain mutual inductive). -/
inductive UnitsField where
  | absent
  | null
  | rules (l : RuleList)

/-- A list of child structure rules. -/
inductive RuleList where
  | nil
  | cons (head : StructureRule) (tail : RuleList)

/-- One structure rule of the grammar JSON:
`{ "structureName": ..., "xpaths": [...], "metadata": ...?, "units": ...? }`.
`structureName` and `xpaths` are required; `metadata` and `units` record
absence / null / value as they appear in the JSON object. -/
inductive StructureRule where
  | mk (structureName : String) (xpaths : List String)
       (metadata : JsonOpt (List MetadataRule)) (units : UnitsField)
end

/-- `structure["structureName"]`. -/
def StructureRule.structureName : StructureRule → String
  | .mk n _ _ _ => n

/-- `structure["xpaths"]`. -/
def StructureRule.xpaths : StructureRule → List String
  | .mk _ x _ _ => x

/-- The rule's `metadata` field as it appears in the JSON object. -/
def StructureRule.metadataField : StructureRule → JsonOpt (List MetadataRule)
  | .mk _ _ m _ => m

/-- The rule's `units` field as it appears in the JSON object. -/
def StructureRule.unitsField : StructureRule → UnitsField
  | .mk _ _ _ u => u

/-- `structure["units"]` with the dead `except NameError`: absent raises
`KeyError`, `null` is `None`, a list is returned. -/
def UnitsField.lookup : UnitsField → Except PyErr (Option RuleList)
  | .absent => .error (.keyError "units")
  | .null => .ok none
  | .rules l => .ok (some l)

/-- Plain list view of a `RuleList`. -/
def RuleList.toList : RuleList → List StructureRule
  | .nil => []
  | .cons h t => h :: t.toList

mutual
/-- Nesting depth of a rule tree (used to pick a sufficient fuel for the
embedded recursion of `extract_unit_information`). -/
def ruleDepth : StructureRule → Nat
  | .mk _ _ _ us => 1 + unitsDepth us

/-- Depth of a `units` field. -/
def unitsDepth : UnitsField → Nat
  | .absent => 0
  | .null => 0
  | .rules l => ruleListDepth l

/-- Depth of a rule list. -/
def ruleListDepth : RuleList → Nat
  | .nil => 0
  | .cons h t => max (ruleDepth h) (ruleListDepth t)
end

/-- A `Sentence` (document.sentence.Sentence).  `get_sentences` appends
one metadata *list* per matched node to `sentence_metadata` and attaches
that list of lists to every sentence it returns, so the field is a list
of metadata lists. -/
structure Sentence where
  sentence : String
  metadata : List (List Metadata)
  deriving DecidableEq, Repr

/-- A `Unit` (document.unit.Unit): metadata, nested child units,
sentences, and the structure name. -/
inductive Unit where
  | mk (metadata : List Metadata) (units : List Unit)
       (sentences : List Sentence) (name : String)

/-- The external tokenizer collaborator, `self.t.tokenize(text)`: the
ordered texts of the sentence objects it returns. -/
def Tokenizer : Type := String → List String

/-- The xpath loop body of `get_sentences` iterating one match list
(lines 137-140): accumulate each match's stripped text plus a newline
into the buffer, and append that match's metadata list. -/
def gsNodes (tostr : ToStrFn) (xp : XPathFn)
    (md : Option (List MetadataRule)) : List Node → String →
    List (List Metadata) → Except PyErr (String × List (List Metadata))
  | [], text, smd => .ok (text, smd)
  | n :: rest, text, smd => do
    let m ← get_metadata tostr xp md n
    gsNodes tostr xp md rest (text ++ pyStrip n.text ++ "\n") (smd ++ [m])

/-- The outer xpath loop of `get_sentences` (lines 133-140). -/
def gsXpaths (tostr : ToStrFn) (xp : XPathFn)
    (md : Option (List MetadataRule)) : List String → Node → String →
    List (List Metadata) → Except PyErr (String × List (List Metadata))
  | [], _, text, smd => .ok (text, smd)
  | xpath :: rest, parent, text, smd => do
    let sentence_nodes := get_nodes_from_xpath xp xpath parent
    let (text1, smd1) ← gsNodes tostr xp md (iterAttr sentence_nodes) text smd
    gsXpaths tostr xp md rest parent text1 smd1

/-- `get_sentences` (lines 112-163).  The rule's `metadata` field is
looked up before the loops (`KeyError` when absent).  With `tokenize`
every tokenizer sentence receives the same shared metadata list (the
word-length computation in the source has no effect); without it the
whole buffer becomes a single `Sentence`. -/
def get_sentences (tok : Tokenizer) (tostr : ToStrFn) (xp : XPathFn)
    (structure0 : StructureRule) (parent_node : Node) (tokenize : Bool) :
    Except PyErr (List Sentence) := do
  let md ← structure0.metadataField.lookup "metadata"
  let (sentence_text, sentence_metadata) ←
    gsXpaths tostr xp md structure0.xpaths parent_node "" []
  if tokenize then
    .ok ((tok sentence_text).map (fun t => ⟨t, sentence_metadata⟩))
  else
    .ok [⟨sentence_text, sentence_metadata⟩]

/-- `extract_unit_information` (lines 63-110), fuelled form; the fuel is
spent only on the recursion into child rules, whose depth is bounded by
`ruleDepth`, so the wrapper below never exhausts it.

For each xpath the matched result's `.children` are iterated; for each
such node the rule's `metadata` is looked up and evaluated and the
rule's `units` list is walked: a child rule whose `structureName`
contains `"sentence"` is recursed into with `extract_unit_information`
(extending `children`), any other child rule is passed to
`get_sentences` (reassigning `sents`); finally one `Unit` is appended. -/
def extractUIF (tok : Tokenizer) (tostr : ToStrFn) (xp : XPathFn) :
    Nat → StructureRule → Node → Except PyErr (List Unit)
  | 0, _, _ => .error .recursionError
  | Nat.succ fuel, .mk struc_name unit_xpaths md us, parent_node =>
    unit_xpaths.foldlM (fun acc xpath => do
      let nodes := get_nodes_from_xpath xp xpath parent_node
      let cs ← childrenAttr nodes
      cs.foldlM (fun acc node => do
        let metadata_structure ← md.lookup "metadata"
        let unit_metadata ← get_metadata tostr xp metadata_structure node
        let child_unit_structures ← us.lookup
        let (children, sents) ←
          match child_unit_structures with
          | none => pure (([] : List Unit), ([] : List Sentence))
          | some l =>    -- `if child_unit_structures != None`
            l.toList.foldlM (fun (st : List Unit × List Sentence)
                child_structure => do
              if pyIn "sentence" child_structure.structureName then
                let child_units ← extractUIF tok tostr xp fuel
                  child_structure node
                pure (st.1 ++ child_units, st.2)
              else
                let s ← get_sentences tok tostr xp child_structure node true
                pure (st.1, s)) ([], [])
        pure (acc ++ [Unit.mk unit_metadata children sents struc_name]))
        acc) []

/-- `extract_unit_information` with the fuel fixed large enough for the
whole rule tree. -/
def extract_unit_information (tok : Tokenizer) (tostr : ToStrFn)
    (xp : XPathFn) (structure0 : StructureRule) (parent_node : Node) :
    Except PyErr (List Unit) :=
  extractUIF tok tostr xp (ruleDepth structure0 + 1) structure0 parent_node

/-- Modelled from the spec: the `logger` Progress Ledger module is not in
src/; spec section 4.5 defines it as a durable string-to-string store.
`get` returns the empty string for an absent key. -/
def Ledger : Type := List (String × String)

/-- Modelled from the spec: `logger.get(key)`, the empty string when the
key is absent. -/
def ledgerGet (led : Ledger) (key : String) : String :=
  ((led.find? (fun p => p.1 == key)).map (·.2)).getD ""

/-- Store a value for a key (newest entry shadows older ones). -/
def ledgerSet (led : Ledger) (key v : String) : Ledger :=
  (key, v) :: led

/-- Modelled from the spec: the three write modes of `logger.log`
(section 4.5): REPLACE and UPDATE overwrite the stored value, APPEND
appends to it. -/
inductive LogMode where
  | replace
  | update
  | append
  deriving DecidableEq, Repr

/-- Modelled from the spec: `logger.log(key, value, mode)`. -/
def logLedger (led : Ledger) (key v : String) : LogMode → Ledger
  | .replace => ledgerSet led key v
  | .update => ledgerSet led key v
  | .append => ledgerSet led key (ledgerGet led key ++ v)

/-- Python `os.path.splitext(name)[1]`: the extension starting at the
last dot, where leading dots of the name do not begin an extension
(so ".hidden" has extension "" and "a.xml" has extension ".xml"). -/
def pySplitextExt (s : String) : String :=
  let rest := s.data.dropWhile (· = '.')
  let tail := (rest.reverse.takeWhile (· ≠ '.')).reverse
  if tail.length = rest.length then "" else ⟨'.' :: tail⟩

/-- Python `filename[0] == "."` (directory entries are never empty). -/
def pyHidden (f : String) : Bool :=
  f.data.head? == some '.'

/-- The per-file loop of `extract_record_metadata`
(collectionprocessor.py lines 123-144).  `num_files_done` starts at 1 and
is incremented for every file of `contents`; a file is processed when the
ledger value of `text_and_metadata_recorded` does not contain
`"[" + str(num_files_done) + "]"` and the file is not hidden.  Processing
flips `finished_recording_text_and_metadata` to `"false"`, runs the
structure extractor (an external call, recorded in the returned trace as
`(index, filename)`), then logs `str(num_files_done)` — without brackets —
under `text_and_metadata_recorded` in UPDATE mode. -/
def ermLoop (led : Ledger) : List String → Nat → List (Nat × String) →
    Ledger × List (Nat × String)
  | [], _, trace => (led, trace)
  | filename :: rest, num_files_done, trace =>
    if !pyIn ("[" ++ toString num_files_done ++ "]")
        (ledgerGet led "text_and_metadata_recorded")
        && !pyHidden filename then
      let led1 := logLedger led "finished_recording_text_and_metadata"
        "false" .replace
      let led2 := logLedger led1 "text_and_metadata_recorded"
        (toString num_files_done) .update
      ermLoop led2 rest (num_files_done + 1) (trace ++ [(num_files_done, filename)])
    else
      ermLoop led rest (num_files_done + 1) trace

/-- `extract_record_metadata` (lines 87-147): filter the directory
listing by extension (case-insensitive), run the per-file loop, then set
`finished_recording_text_and_metadata` to `"true"`.  The directory
listing and the extension are inputs; the returned trace lists the
`(index, filename)` pairs for which the structure extractor ran. -/
def extract_record_metadata (led : Ledger) (listing : List String)
    (filename_extension : String) : Ledger × List (Nat × String) :=
  let contents := listing.filter
    (fun filename => pyLower (pySplitextExt filename) == pyLower filename_extension)
  let (led1, trace) := ermLoop led contents 1 []
  (logLedger led1 "finished_recording_text_and_metadata" "true" .replace, trace)

/-- A persisted `Document` row as `parse_documents` consumes it (the ORM
model itself is an external collaborator; only `id` is read). -/
structure Document where
  id : Nat
  deriving DecidableEq, Repr

/-- Python `int(s)` restricted to the strings this pipeline stores:
decimal digit strings (the pipeline writes only `str(document.id)`);
anything else raises `ValueError`. -/
def pyInt (s : String) : Except PyErr Nat :=
  if s.data ≠ [] ∧ s.data.all Char.isDigit then
    .ok (s.data.foldl (fun n c => n * 10 + (c.toNat - 48)) 0)
  else
    .error .valueError

/-- The per-document loop of `parse_documents` (lines 171-185): each
document with `id` greater than the marker read before the loop is parsed
(recorded in the trace), then `finished_grammatical_processing` is set to
`"false"` and `latest_parsed_document_id` to `str(document.id)`. -/
def pdLoop (led : Ledger) : List Document → Nat → List Nat →
    Ledger × List Nat
  | [], _, trace => (led, trace)
  | d :: rest, latest_id, trace =>
    if latest_id < d.id then
      let led1 := logLedger led "finished_grammatical_processing" "false"
        .replace
      let led2 := logLedger led1 "latest_parsed_document_id"
        (toString d.id) .replace
      pdLoop led2 rest latest_id (trace ++ [d.id])
    else
      pdLoop led rest latest_id trace

/-- `parse_documents` (lines 149-187).  The persisted documents are an
input (the database is external); the stored
`latest_parsed_document_id` is read once, `"0"` when empty, and
`int(...)` raises `ValueError` on a non-numeric value.  The returned
trace lists the ids handed to the external parser, in order. -/
def parse_documents (led : Ledger) (documents : List Document) :
    Except PyErr (Ledger × List Nat) :=
  let latest := ledgerGet led "latest_parsed_document_id"
  let latest := if latest.length = 0 then "0" else latest
  match pyInt latest with
  | .error e => .error e
  | .ok latest_id => .ok (pdLoop led documents latest_id [])

/-- The configuration toggles `process` consults (`app.config`). -/
structure AppConfig where
  grammatical_processing : Bool
  word_to_word_similarity : Bool
  part_of_speech_tagging : Bool
  deriving DecidableEq, Repr

/-- One observable unit of pipeline work, for the run trace. -/
inductive PAction where
  | dbReset
  | extractFile (index : Nat) (filename : String)
  | parseDoc (id : Nat)
  deriving DecidableEq, Repr

/-- `process` (lines 27-85).  Stage gates, in source order: the
extraction stage runs unless the stored
`finished_recording_text_and_metadata` contains `"true"` (no `.lower()`
here); parsing runs when the configuration enables it and the lowered
`finished_grammatical_processing` does not contain `"true"`; the word
count stage only writes `word_counts_done = "true"` when its lowered
flag does not contain `"true"`; the TF-IDF and word-similarity stages
only log messages (TODO bodies in the source), so they neither write nor
trace. -/
def process (cfg : AppConfig) (led : Ledger) (documents : List Document)
    (listing : List String) (filename_extension : String)
    (start_from_scratch : Bool) : Except PyErr (Ledger × List PAction) := do
  let trace0 : List PAction := if start_from_scratch then [.dbReset] else []
  let (led1, trace1) :=
    if !pyIn "true" (ledgerGet led "finished_recording_text_and_metadata") then
      let (l, t) := extract_record_metadata led listing filename_extension
      (l, trace0 ++ t.map (fun p => PAction.extractFile p.1 p.2))
    else (led, trace0)
  let (led2, trace2) ←
    if (cfg.grammatical_processing
        || (cfg.word_to_word_similarity && cfg.part_of_speech_tagging))
        && !pyIn "true" (pyLower (ledgerGet led1 "finished_grammatical_processing")) then do
      let (l, t) ← parse_documents led1 documents
      Except.ok (l, trace1 ++ t.map PAction.parseDoc)
    else Except.ok (led1, trace1)
  let led3 :=
    if !pyIn "true" (pyLower (ledgerGet led2 "word_counts_done")) then
      logLedger led2 "word_counts_done" "true" .replace
    else led2
  -- the TF-IDF gate (`tfidf_done`) and the word-similarity gate
  -- (`word_similarity_calculations_done`, reached only when
  -- WORD_TO_WORD_SIMILARITY is set) guard bodies that only log a message
  .ok (led3, trace2)

/-! Concrete collaborators and XML fixtures used by the closed theorems
and witnesses below. -/

/-- A trivial tokenizer returning the whole buffer as one sentence. -/
def idTok : Tokenizer := fun s => [s]

/-- A trivial serialiser. -/
def emptyToStr : ToStrFn := fun _ => ""

/-- An XPath evaluator that matches nothing. -/
def noXp : XPathFn := fun _ _ => []

/-- An XPath evaluator that returns the node's direct children for every
pattern. -/
def childXp : XPathFn := fun n _ => n.children

/-- A leaf element with text. -/
def nLeaf : Node := .mk "g" [] "u" []

/-- A one-child element. -/
def nMid : Node := .mk "c" [] "t" [nLeaf]

/-- A small document: root, one child, one grandchild. -/
def nRoot : Node := .mk "root" [] "" [nMid]

/-- A terminal-named child rule (name contains "sentence"), with both
optional fields present so no lookup can fail. -/
def ruleSentenceBlock : StructureRule :=
  .mk "sentenceBlock" [""] (.val []) (.rules .nil)

/-- A rule whose only child rule is `ruleSentenceBlock`. -/
def ruleDocWithSentenceChild : StructureRule :=
  .mk "doc" [""] (.val []) (.rules (.cons ruleSentenceBlock .nil))

/-- A non-terminal-named child rule. -/
def ruleParagraph : StructureRule :=
  .mk "paragraph" [""] (.val []) (.rules .nil)

/-- A rule whose only child rule is `ruleParagraph`. -/
def ruleDocWithParagraphChild : StructureRule :=
  .mk "doc2" [""] (.val []) (.rules (.cons ruleParagraph .nil))

/-- A rule with both optional fields absent. -/
def ruleNoOptionalFields : StructureRule := .mk "s" [] .absent .absent

/-- A rule with the `metadata` key absent, applied to matched children. -/
def ruleDocNoMetadata : StructureRule := .mk "doc" [""] .absent .absent

/-- A rule with `metadata` present but the `units` key absent. -/
def ruleDocNoUnits : StructureRule := .mk "doc" [""] (.val []) .absent

/-- A metadata rule without an `attr` key, with a non-empty XPath. -/
def mdRuleTextOnly : MetadataRule :=
  { xpaths := .val ["p"], attr := .absent, propertyName := some "x" }

/-- An element carrying a `class` attribute. -/
def nWithClass : Node := .mk "x" [("class", "a")] "" []

/-- An element without attributes. -/
def nNoClass : Node := .mk "y" [] "" []

/-- A parent whose children are one attributed and one unattributed
element. -/
def nClassParent : Node := .mk "r" [] "" [nWithClass, nNoClass]

/-- Claim C1 (code bug).  The claim, following the spec, says a child
rule whose `structureName` contains "sentence" contributes only
Sentences and never nested Units, and any other child rule contributes
only nested Units and never Sentences.  The source has the dispatch
inverted: `if "sentence" in child_type` recurses into
`extract_unit_information` (extending `children`), and the `else` branch
calls `get_sentences`.  Evaluated on a rule with a `"sentenceBlock"`
child the extractor returns a nested child Unit and no Sentence, and on
a rule with a `"paragraph"` child it returns a Sentence and no nested
Unit. -/
theorem c1_terminal_dispatch_inverted :
    extract_unit_information idTok emptyToStr noXp
        ruleDocWithSentenceChild nRoot
      = .ok [Unit.mk [] [Unit.mk [] [] [] "sentenceBlock"] [] "doc"]
    ∧ extract_unit_information idTok emptyToStr noXp
        ruleDocWithParagraphChild nRoot
      = .ok [Unit.mk [] [] [⟨"u\n", [[]]⟩] "doc2"] := by
  exact ⟨rfl, rfl⟩

/-- Claim C2 (code bug).  The claim, following the spec, says absent
`metadata` / `units` fields are treated as "no rules" and extraction
completes normally.  The source guards the dictionary lookups with
`except NameError`, which cannot catch the `KeyError` that a missing key
raises, so the error propagates: `get_sentences` fails at its
`structure["metadata"]` lookup, and `extract_unit_information` fails at
`structure["metadata"]` or — when that key is present — at
`structure["units"]`. -/
theorem c2_absent_fields_raise_keyerror :
    get_sentences idTok emptyToStr noXp ruleNoOptionalFields nRoot true
      = .error (.keyError "metadata")
    ∧ extract_unit_information idTok emptyToStr noXp ruleDocNoMetadata nRoot
      = .error (.keyError "metadata")
    ∧ extract_unit_information idTok emptyToStr noXp ruleDocNoUnits nRoot
      = .error (.keyError "units") := by
  exact ⟨rfl, rfl, rfl⟩

/-- Claim C5 (code bug).  The claim, following the spec, says a metadata
rule without `attr` and with a non-empty XPath emits one Metadata per
matched node carrying that node's trimmed text.  The source fails twice
on the way there: `get_metadata` looks up `spec["attr"]` behind a dead
`except NameError`, so a rule without the key raises `KeyError("attr")`
before any text is read; and `get_xpath_text` applies `etree.tostring`
to the whole match list `nodes` instead of the loop variable `node`,
which raises `TypeError` as soon as there is a match. -/
theorem c5_text_rule_raises :
    get_metadata emptyToStr childXp (some [mdRuleTextOnly]) nRoot
      = .error (.keyError "attr")
    ∧ get_xpath_text emptyToStr childXp "p" nRoot = .error .typeError := by
  exact ⟨rfl, rfl⟩

/-- Claim C6 counterexample.  The claim says that when the named
attribute is absent on a matched node, metadata extraction skips that
node silently and still emits the Metadata of the nodes that carry the
attribute.  On a match list whose first node carries `class="a"` and
whose second lacks it, the source instead raises: `node.get("class")`
returns `None` and `None.split(" ")` is an `AttributeError`; the claimed
result `.ok ["a"]` is not produced. -/
theorem c6_counterexample :
    get_xpath_attribute childXp "p" "class" nClassParent
        = .error .attributeError
    ∧ get_xpath_attribute childXp "p" "class" nClassParent ≠ .ok ["a"] := by
  refine ⟨rfl, fun h => ?_⟩
  rw [show get_xpath_attribute childXp "p" "class" nClassParent
      = .error .attributeError from rfl] at h
  exact Except.noConfusion h

/-- Claim C10 counterexample.  The claim says that whenever a rule's
xpaths match zero nodes, `get_sentences` with `tokenize = false` returns
exactly one empty Sentence and never an error.  A rule whose `metadata`
key is absent (and whose xpath list is empty, hence zero matches)
instead raises `KeyError("metadata")` at the lookup that precedes the
loop. -/
theorem c10_counterexample :
    get_sentences idTok emptyToStr noXp ruleNoOptionalFields nRoot false
      = .error (.keyError "metadata") := by
  exact rfl

/-- If some node of the match list lacks the attribute, the
`get_xpath_attribute` loop raises `AttributeError` (whichever such node
comes first, the error value is the same). -/
theorem gxaLoop_error_of_missing (a : String) (n : Node)
    (hn : n.get a = none) :
    ∀ l acc, n ∈ l → gxaLoop a l acc = .error .attributeError := by
  intro l
  induction l with
  | nil => intro acc h; exact absurd h (List.not_mem_nil n)
  | cons hd tl ih =>
    intro acc hmem
    rcases List.mem_cons.mp hmem with h | h
    · subst h; simp [gxaLoop, hn]
    · cases hh : hd.get a with
      | none => simp [gxaLoop, hh]
      | some v =>
        simp only [gxaLoop, hh]
        exact ih _ h

/-- Claim C6, amended: if the named attribute is absent on some matched
node, metadata extraction raises an error (`node.get` returns `None` and
`None.split(" ")` is an `AttributeError`) instead of skipping the node;
nothing is emitted for the rule. -/
theorem c6_missing_attribute_raises (xp : XPathFn) (pat a : String)
    (node n : Node) (hb : pyBlank pat = false) (hmem : n ∈ xp node pat)
    (hn : n.get a = none) :
    get_xpath_attribute xp pat a node = .error .attributeError := by
  unfold get_xpath_attribute
  rw [hb]
  simp only [Bool.false_eq_true, if_false]
  exact gxaLoop_error_of_missing a n hn (xp node pat) [] hmem

/-- Witness for C6 amended at a concrete input: the second matched child
lacks `class`, so extraction errors. -/
theorem c6_witness :
    get_xpath_attribute childXp "p" "class" nClassParent
      = .error .attributeError :=
  c6_missing_attribute_raises childXp "p" "class" nClassParent nNoClass
    (by decide)
    (List.Mem.tail _ (List.Mem.head _))
    rfl

/-- Claim C9: a blank (empty or whitespace-only) XPath entry resolves to
the node itself as the only match, never to zero matches and never to an
error: `get_nodes_from_xpath` (unit and sentence extraction) returns the
node object itself, `get_xpath_text` returns exactly the one text of the
node itself, and `get_xpath_attribute` behaves exactly as its match loop
would on the singleton match list `[node]`. -/
theorem c9_blank_xpath_self_match (tostr : ToStrFn) (xp : XPathFn)
    (xpath a : String) (node : Node) (hb : pyBlank xpath = true) :
    get_nodes_from_xpath xp xpath node = .node node
    ∧ get_xpath_text tostr xp xpath node = .ok [tostr node]
    ∧ get_xpath_attribute xp xpath a node = gxaLoop a [node] [] := by
  refine ⟨?_, ?_, ?_⟩
  · simp [get_nodes_from_xpath, hb]
  · simp [get_xpath_text, hb]
  · cases hg : node.get a with
    | none => simp [get_xpath_attribute, hb, gxaLoop, hg]
    | some v => simp [get_xpath_attribute, hb, gxaLoop, hg]

/-- Witness for C9 at the empty pattern. -/
theorem c9_witness :
    get_nodes_from_xpath noXp "" nRoot = .node nRoot
    ∧ get_xpath_text emptyToStr noXp "" nRoot = .ok [emptyToStr nRoot]
    ∧ get_xpath_attribute noXp "" "class" nRoot
      = gxaLoop "class" [nRoot] [] :=
  c9_blank_xpath_self_match emptyToStr noXp "" "class" nRoot (by decide)

/-- Binding a successful `Except` computation applies the continuation. -/
theorem exceptBindOk {α β : Type} (a : α) (f : α → Except PyErr β) :
    (Except.ok a >>= f : Except PyErr β) = f a := rfl

/-- When every xpath of the list yields no iterated match, the
`get_sentences` accumulation loop leaves buffer and metadata untouched. -/
theorem gsXpaths_of_no_matches (tostr : ToStrFn) (xp : XPathFn)
    (md : Option (List MetadataRule)) :
    ∀ (xps : List String) (parent : Node) (text : String)
      (smd : List (List Metadata)),
      (∀ x ∈ xps, iterAttr (get_nodes_from_xpath xp x parent) = []) →
      gsXpaths tostr xp md xps parent text smd = .ok (text, smd) := by
  intro xps
  induction xps with
  | nil => intro parent text smd _; rfl
  | cons hd tl ih =>
    intro parent text smd h
    have h0 : iterAttr (get_nodes_from_xpath xp hd parent) = [] :=
      h hd (List.mem_cons_self hd tl)
    simp only [gsXpaths, h0, gsNodes, exceptBindOk]
    exact ih parent text smd (fun x hx => h x (List.mem_cons_of_mem hd hx))

/-- Claim C10, amended: for every structure rule whose `metadata` key is
present (with a list or `null`) and whose xpaths match zero nodes,
`get_sentences` with `tokenize = false` returns exactly one Sentence
with empty text buffer and empty metadata list — not an empty sentence
list and not an error.  (With the `metadata` key absent the lookup that
precedes the loop raises instead; see the counterexample.) -/
theorem c10_zero_match_single_empty_sentence (tok : Tokenizer)
    (tostr : ToStrFn) (xp : XPathFn) (s : StructureRule) (parent : Node)
    (hmd : s.metadataField ≠ .absent)
    (hz : ∀ x ∈ s.xpaths, iterAttr (get_nodes_from_xpath xp x parent) = []) :
    get_sentences tok tostr xp s parent false = .ok [⟨"", []⟩] := by
  unfold get_sentences
  cases hm : s.metadataField with
  | absent => exact absurd hm hmd
  | null =>
    simp only [hm, JsonOpt.lookup, exceptBindOk,
      gsXpaths_of_no_matches tostr xp none s.xpaths parent "" [] hz]
    rfl
  | val l =>
    simp only [hm, JsonOpt.lookup, exceptBindOk,
      gsXpaths_of_no_matches tostr xp (some l) s.xpaths parent "" [] hz]
    rfl

/-- Witness for C10 amended: a rule with `metadata: null` and one xpath
matching nothing yields the single empty Sentence. -/
theorem c10_witness :
    get_sentences idTok emptyToStr noXp (.mk "s" ["q"] .null .absent)
      nRoot false = .ok [⟨"", []⟩] :=
  c10_zero_match_single_empty_sentence idTok emptyToStr noXp
    (.mk "s" ["q"] .null .absent) nRoot
    (fun h => JsonOpt.noConfusion h)
    (by
      intro x hx
      simp only [StructureRule.xpaths, List.mem_singleton] at hx
      subst hx
      rfl)

/-- Claim C3 (code bug).  The claim, following the spec, says each
extracted file's marker `"[<index>]"` is APPENDed to
`text_and_metadata_recorded` so that the later substring check finds it.
The source instead logs `str(num_files_done)` — no brackets — in UPDATE
(overwrite) mode, so after extracting the single file of a fresh run the
stored value is `"1"`, the check for `"[1]"` fails, and a re-run would
re-extract the file.  The stage flag is still `"true"` once the
directory is exhausted. -/
theorem c3_marker_logged_unbracketed_update :
    (extract_record_metadata [] ["a.xml"] ".xml").2 = [(1, "a.xml")]
    ∧ ledgerGet (extract_record_metadata [] ["a.xml"] ".xml").1
        "text_and_metadata_recorded" = "1"
    ∧ pyIn "[1]" (ledgerGet (extract_record_metadata [] ["a.xml"] ".xml").1
        "text_and_metadata_recorded") = false
    ∧ ledgerGet (extract_record_metadata [] ["a.xml"] ".xml").1
        "finished_recording_text_and_metadata" = "true" := by
  exact ⟨rfl, rfl, rfl, rfl⟩

/-- Claim C4: with `text_and_metadata_recorded = "[1][2]"` stored and a
directory of exactly three files matching the extension (the third not
hidden), re-running the extraction stage invokes the structure extractor
exactly once, for file index 3, and not for files 1 and 2. -/
theorem c4_resume_extracts_only_third_file (led : Ledger)
    (f1 f2 f3 ext : String)
    (h1 : pyLower (pySplitextExt f1) = pyLower ext)
    (h2 : pyLower (pySplitextExt f2) = pyLower ext)
    (h3 : pyLower (pySplitextExt f3) = pyLower ext)
    (hdot : pyHidden f3 = false)
    (hled : ledgerGet led "text_and_metadata_recorded" = "[1][2]") :
    (extract_record_metadata led [f1, f2, f3] ext).2 = [(3, f3)] := by
  have b1 : (pyLower (pySplitextExt f1) == pyLower ext) = true := by
    rw [h1]; exact beq_self_eq_true _
  have b2 : (pyLower (pySplitextExt f2) == pyLower ext) = true := by
    rw [h2]; exact beq_self_eq_true _
  have b3 : (pyLower (pySplitextExt f3) == pyLower ext) = true := by
    rw [h3]; exact beq_self_eq_true _
  have e1 : pyIn ("[" ++ toString 1 ++ "]") "[1][2]" = true := by decide
  have e2 : pyIn ("[" ++ toString 2 ++ "]") "[1][2]" = true := by decide
  have e3 : pyIn ("[" ++ toString 3 ++ "]") "[1][2]" = false := by decide
  simp [extract_record_metadata, List.filter, b1, b2, b3, ermLoop,
    hled, e1, e2, e3, hdot]

/-- Witness for C4 at a concrete ledger and directory. -/
theorem c4_witness :
    (extract_record_metadata [("text_and_metadata_recorded", "[1][2]")]
      ["a.xml", "b.xml", "c.xml"] ".xml").2 = [(3, "c.xml")] :=
  c4_resume_extracts_only_third_file
    [("text_and_metadata_recorded", "[1][2]")] "a.xml" "b.xml" "c.xml"
    ".xml" (by decide) (by decide) (by decide) (by decide) (by decide)

/-- Reading back the key just stored. -/
theorem ledgerGet_set_same (led : Ledger) (k v : String) :
    ledgerGet (ledgerSet led k v) k = v := by
  simp [ledgerGet, ledgerSet, List.find?]

/-- A non-empty string has non-zero length. -/
theorem string_length_ne_zero (s : String) (h : s ≠ "") : ¬ s.length = 0 := by
  cases s with
  | mk data =>
    cases data with
    | nil => exact absurd rfl h
    | cons a l => intro hc; simp [String.length] at hc

/-- Behaviour of the `parse_documents` loop: the trace extends by the ids
of exactly the documents above the marker, in input order; with no such
document the ledger is untouched; otherwise `latest_parsed_document_id`
ends at the last parsed id. -/
theorem pdLoop_spec (m : Nat) :
    ∀ (docs : List Document) (led : Ledger) (trace : List Nat),
      ∃ led2, pdLoop led docs m trace
          = (led2, trace ++ (docs.filter (fun d => m < d.id)).map (·.id))
        ∧ ((docs.filter (fun d => m < d.id)).map (·.id) = [] → led2 = led)
        ∧ (∀ x, ((docs.filter (fun d => m < d.id)).map (·.id)).getLast?
              = some x →
            ledgerGet led2 "latest_parsed_document_id" = toString x) := by
  intro docs
  induction docs with
  | nil =>
    intro led trace
    exact ⟨led, by simp [pdLoop], fun _ => rfl, by simp⟩
  | cons d rest ih =>
    intro led trace
    by_cases h : m < d.id
    · obtain ⟨led2, heq, hnil, hlast⟩ := ih
        (logLedger (logLedger led "finished_grammatical_processing" "false"
          .replace) "latest_parsed_document_id" (toString d.id) .replace)
        (trace ++ [d.id])
      refine ⟨led2, ?_, ?_, ?_⟩
      · simp [pdLoop, h, heq, List.filter_cons, List.append_assoc]
      · intro hcontra
        simp [List.filter_cons, h] at hcontra
      · intro x hx
        rw [List.filter_cons_of_pos (by simpa using h),
          List.map_cons] at hx
        cases hrm : (rest.filter (fun d => m < d.id)).map (·.id) with
        | nil =>
          rw [hrm, List.getLast?_singleton] at hx
          have hx2 : x = d.id := by injection hx with hx2; exact hx2.symm
          subst hx2
          rw [hnil hrm]
          exact ledgerGet_set_same _ _ _
        | cons y ys =>
          rw [hrm, List.getLast?_cons_cons] at hx
          exact hlast x (by rw [hrm]; exact hx)
    · obtain ⟨led2, heq, hnil, hlast⟩ := ih led trace
      refine ⟨led2, ?_, ?_, ?_⟩
      · simp [pdLoop, h, heq, List.filter_cons]
      · intro hcontra
        apply hnil
        simpa [List.filter_cons, h] using hcontra
      · intro x hx
        apply hlast
        rw [List.filter_cons_of_neg (by simpa using h)] at hx
        exact hx

/-- Claim C7: with the persisted documents in ascending id order and a
marker that is either absent (treated as `0`) or the stored number `m`,
`parse_documents` hands to the external parser exactly the documents
with id greater than `m` (in ascending order), advancing
`latest_parsed_document_id` to each parsed document's id — so the stored
marker ends at the last parsed id, and the ledger is untouched when
nothing is parsed. -/
theorem c7_parse_documents_gt_marker (led : Ledger) (docs : List Document)
    (m : Nat)
    (hasc : List.Pairwise (fun a b => a.id < b.id) docs)
    (hm : (ledgerGet led "latest_parsed_document_id" = "" ∧ m = 0)
        ∨ (ledgerGet led "latest_parsed_document_id" ≠ ""
            ∧ pyInt (ledgerGet led "latest_parsed_document_id") = .ok m)) :
    ∃ led2, parse_documents led docs
        = .ok (led2, (docs.filter (fun d => m < d.id)).map (·.id))
      ∧ ((docs.filter (fun d => m < d.id)).map (·.id) = [] → led2 = led)
      ∧ (∀ x, ((docs.filter (fun d => m < d.id)).map (·.id)).getLast?
            = some x →
          ledgerGet led2 "latest_parsed_document_id" = toString x)
      ∧ List.Pairwise (· < ·) ((docs.filter (fun d => m < d.id)).map (·.id))
    := by
  obtain ⟨led2, heq, hnil, hlast⟩ := pdLoop_spec m docs led []
  have hpd : parse_documents led docs = .ok (pdLoop led docs m []) := by
    rcases hm with ⟨he, hm0⟩ | ⟨hne, hparse⟩
    · subst hm0
      unfold parse_documents
      rw [he]
      rfl
    · have hlen : ¬ (ledgerGet led "latest_parsed_document_id").length = 0 :=
        string_length_ne_zero _ hne
      show (match pyInt (if (ledgerGet led "latest_parsed_document_id").length
            = 0 then "0" else ledgerGet led "latest_parsed_document_id") with
        | Except.error e => Except.error e
        | Except.ok latest_id => Except.ok (pdLoop led docs latest_id []))
        = Except.ok (pdLoop led docs m [])
      rw [if_neg hlen, hparse]
  refine ⟨led2, ?_, hnil, hlast, ?_⟩
  · rw [hpd, heq, List.nil_append]
  · exact List.pairwise_map.mpr (hasc.filter _)

/-- Witness for C7: marker `"2"`, documents 1, 2, 3 — only document 3 is
parsed and the marker ends at `"3"`. -/
theorem c7_witness :
    ∃ led2, parse_documents [("latest_parsed_document_id", "2")]
        [⟨1⟩, ⟨2⟩, ⟨3⟩]
        = .ok (led2, (([⟨1⟩, ⟨2⟩, ⟨3⟩] : List Document).filter
            (fun d => 2 < d.id)).map (·.id))
      ∧ ((([⟨1⟩, ⟨2⟩, ⟨3⟩] : List Document).filter
            (fun d => 2 < d.id)).map (·.id) = []
          → led2 = [("latest_parsed_document_id", "2")])
      ∧ (∀ x, ((([⟨1⟩, ⟨2⟩, ⟨3⟩] : List Document).filter
            (fun d => 2 < d.id)).map (·.id)).getLast? = some x →
          ledgerGet led2 "latest_parsed_document_id" = toString x)
      ∧ List.Pairwise (· < ·) ((([⟨1⟩, ⟨2⟩, ⟨3⟩] : List Document).filter
            (fun d => 2 < d.id)).map (·.id)) :=
  c7_parse_documents_gt_marker [("latest_parsed_document_id", "2")]
    [⟨1⟩, ⟨2⟩, ⟨3⟩] 2
    (by simp [List.pairwise_cons])
    (Or.inr ⟨by decide, rfl⟩)

/-- A lowercase needle found in a string is still found after the string
is lowercased (the source checks some flags raw and some lowered). -/
theorem pyIn_true_lower (v : String) (h : pyIn "true" v = true) :
    pyIn "true" (pyLower v) = true := by
  unfold pyIn at h ⊢
  rw [decide_eq_true_eq] at h ⊢
  obtain ⟨u, w, huw⟩ := h
  refine ⟨u.map Char.toLower, w.map Char.toLower, ?_⟩
  have hmap : "true".data.map Char.toLower = "true".data := by decide
  show u.map Char.toLower ++ "true".data ++ w.map Char.toLower
    = (pyLower v).data
  rw [show (pyLower v).data = v.data.map Char.toLower from rfl, ← huw]
  simp [hmap]

/-- Claim C8: when the stored value of all five stage flags contains
`"true"` and `start_from_scratch` is false, the full pipeline run is a
no-op: it performs no extraction and no parsing (empty action trace) and
returns the ledger exactly as it was. -/
theorem c8_all_flags_true_noop (cfg : AppConfig) (led : Ledger)
    (docs : List Document) (listing : List String) (ext : String)
    (h1 : pyIn "true"
      (ledgerGet led "finished_recording_text_and_metadata") = true)
    (h2 : pyIn "true"
      (ledgerGet led "finished_grammatical_processing") = true)
    (h3 : pyIn "true" (ledgerGet led "word_counts_done") = true)
    (_h4 : pyIn "true" (ledgerGet led "tfidf_done") = true)
    (_h5 : pyIn "true"
      (ledgerGet led "word_similarity_calculations_done") = true) :
    process cfg led docs listing ext false = .ok (led, []) := by
  have h2l := pyIn_true_lower _ h2
  have h3l := pyIn_true_lower _ h3
  unfold process
  simp [h1, h2l, h3l, exceptBindOk]

/-- Witness for C8: a ledger with all five flags `"true"`. -/
theorem c8_witness :
    process ⟨true, true, true⟩
      [("finished_recording_text_and_metadata", "true"),
       ("finished_grammatical_processing", "true"),
       ("word_counts_done", "true"),
       ("tfidf_done", "true"),
       ("word_similarity_calculations_done", "true")]
      [⟨1⟩] ["a.xml"] ".xml" false
      = .ok ([("finished_recording_text_and_metadata", "true"),
       ("finished_grammatical_processing", "true"),
       ("word_counts_done", "true"),
       ("tfidf_done", "true"),
       ("word_similarity_calculations_done", "true")], []) :=
  c8_all_flags_true_noop ⟨true, true, true⟩
    [("finished_recording_text_and_metadata", "true"),
     ("finished_grammatical_processing", "true"),
     ("word_counts_done", "true"),
     ("tfidf_done", "true"),
     ("word_similarity_calculations_done", "true")]
    [⟨1⟩] ["a.xml"] ".xml"
    (by decide) (by decide) (by decide) (by decide) (by decide)

end Wordseer
